import Mathlib

/-!
Verification of the vocabulary flashcard application (src/app.py) against its
natural-language specification.

The application generates client-side scripts per playback surface.  The parts
the claims are about are embedded shallowly below:

* the duration estimator (app.py line 91), a pure arithmetic formula;
* the per-surface playback state machine (the generated functions
  instantSpeak, resetButton, and playFallbackAudio, app.py lines 142-300),
  embedded as a step function over an explicit state record, with timer
  callbacks delivered as events carrying their firing time;
* the sequential both-languages player (playBothSequentially and
  resetBothButton, app.py lines 470-586), embedded the same way;
* the navigation controls over the cursor (app.py lines 375-390, 595-608);
* the row-filtering pipeline of auto_load_data and the progress computation
  of the main screen (app.py lines 332-340 and 393-400).

Host numbers (script durations in milliseconds, speech rates) are modelled as
rationals; timer callbacks are one-shot events that can only be delivered when
their timer is still armed and its deadline has been reached.  Fallible code
(the progress division) returns Option.
-/

namespace VocabApp

/-! ## Duration estimator (app.py line 91)

estimated_duration = max(2000, (len(text) / 12) * 1000 * (1 / rate) + 1500)
-/

def estimated_duration (text : String) (rate : ℚ) : ℚ :=
  max 2000 (((text.length : ℚ) / 12) * 1000 * (1 / rate) + 1500)

/-- The reference definition of the estimator as the spec writes it
(spec section 4.2): estimatedMilliseconds(text, speechRate) =
max(2000, (length(text) / 12) * 1000 / speechRate + 1500).  Declared
separately from `estimated_duration` (which follows the source) so that the
refinement claim C6 can compare the two. -/
def estimatedMilliseconds (text : String) (rate : ℚ) : ℚ :=
  max 2000 (((text.length : ℚ) / 12) * 1000 / rate + 1500)

/-! ## Per-surface playback machine (generated script, app.py lines 142-300) -/

/-- The label shown on the playback button: the original caption, or the
busy caption shown while a playback is in flight. -/
inductive BtnLabel
  | original
  | busy
deriving DecidableEq

/-- The transient status line under the button.  The source writes concrete
strings; here each distinct string is one tag.  `done` is the completion
indicator written by resetButton, `failed` the failure indicator written by
the fallback clip error handler. -/
inductive StatusLine
  | empty
  | playingLive
  | playingFallback
  | done
  | failed
deriving DecidableEq

/-- Per-surface constants fixed when the script is generated:
the text and language of the surface, the speech rate, whether the
pre-rendered fallback audio string is non-empty, whether
window.speechSynthesis is present, and whether the utterance constructor
is usable (present and not throwing). -/
structure SurfaceCfg where
  text : String
  lang : String
  rate : ℚ
  hasFallback : Bool
  synthPresent : Bool
  utteranceCtor : Bool
deriving DecidableEq

/-- The mutable state of one surface: the isPlaying flag, the watchdog
timer (none when cleared, otherwise its deadline), the button label and
disabled flag, the status line, and counters recording the observable
side effects (global cancel calls, live-engine speak calls) together with
the last request handed to the fallback path. -/
structure SurfaceState where
  isPlaying : Bool
  timerDeadline : Option ℚ
  label : BtnLabel
  disabled : Bool
  status : StatusLine
  cancelCount : ℕ
  speakCount : ℕ
  fallbackRequested : Option (String × String)
deriving DecidableEq

/-- The state right after the script is installed (app.py lines 144-145). -/
def initialSurface : SurfaceState :=
  { isPlaying := false, timerDeadline := none, label := BtnLabel.original,
    disabled := false, status := StatusLine.empty,
    cancelCount := 0, speakCount := 0, fallbackRequested := none }

/-- resetButton (app.py lines 156-180): restore the label, enable the
button, write the completion indicator, clear isPlaying, and clear the
watchdog timer. -/
def resetButton (s : SurfaceState) : SurfaceState :=
  { s with label := BtnLabel.original, disabled := false,
           status := StatusLine.done, isPlaying := false,
           timerDeadline := none }

/-- playFallbackAudio (app.py lines 259-299): when the pre-rendered audio
string is non-empty, show the fallback status and start clip playback,
recording that the fallback was dispatched with the text and language of the
surface; when it is empty, call resetButton directly. -/
def playFallbackAudio (cfg : SurfaceCfg) (s : SurfaceState) : SurfaceState :=
  if cfg.hasFallback then
    { s with status := StatusLine.playingFallback,
             fallbackRequested := some (cfg.text, cfg.lang) }
  else
    resetButton s

/-- The audio.onerror handler inside playFallbackAudio (app.py lines
273-287): restore the label, enable the button, write the failure
indicator, clear isPlaying.  The source does not clear the watchdog timer
here, so timerDeadline is left untouched. -/
def clipErrorHandler (s : SurfaceState) : SurfaceState :=
  { s with label := BtnLabel.original, disabled := false,
           status := StatusLine.failed, isPlaying := false }

/-- instantSpeak (app.py lines 182-257), run at time `now`:
return unchanged when isPlaying is already set; otherwise cancel any
global speech (when window.speechSynthesis is present), clear a pending
watchdog, enter the busy visual state, arm the watchdog at
now + estimated_duration, then either dispatch a live utterance (when the
engine and the utterance constructor are usable) or fall through to
playFallbackAudio.  The early return when the button or status element is
absent from the document is not modelled (both exist once the script is
rendered); there is no check on the text being non-empty. -/
def instantSpeak (cfg : SurfaceCfg) (now : ℚ) (s : SurfaceState) : SurfaceState :=
  if s.isPlaying then s
  else
    let s1 : SurfaceState :=
      { s with
        cancelCount := if cfg.synthPresent then s.cancelCount + 1 else s.cancelCount,
        timerDeadline := none }
    let s2 : SurfaceState :=
      { s1 with isPlaying := true, label := BtnLabel.busy, disabled := true,
                status := StatusLine.playingLive,
                timerDeadline := some (now + estimated_duration cfg.text cfg.rate) }
    if cfg.synthPresent && cfg.utteranceCtor then
      { s2 with speakCount := s2.speakCount + 1 }
    else
      playFallbackAudio cfg s2

/-- The events a surface can receive: a button click, the live-engine
completion and error events, the watchdog callback, and the fallback clip
terminal events. -/
inductive Ev
  | click
  | engineEnd
  | engineError
  | watchdogFire
  | clipEnded
  | clipError
deriving DecidableEq

/-- One event delivered at time `t`.  Handlers are translated from the
generated script: onend calls resetButton, onerror calls playFallbackAudio,
the watchdog callback runs resetButton but can only be delivered while its
timer is still armed and the deadline has been reached, the clip events run
resetButton and the inline clip error handler. -/
def step (cfg : SurfaceCfg) (t : ℚ) (s : SurfaceState) : Ev → SurfaceState
  | Ev.click => instantSpeak cfg t s
  | Ev.engineEnd => resetButton s
  | Ev.engineError => playFallbackAudio cfg s
  | Ev.watchdogFire =>
      match s.timerDeadline with
      | some d => if d ≤ t then resetButton s else s
      | none => s
  | Ev.clipEnded => resetButton s
  | Ev.clipError => clipErrorHandler s

/-- Deliver a list of timed events in order. -/
def runTrace (cfg : SurfaceCfg) (s : SurfaceState) : List (ℚ × Ev) → SurfaceState
  | [] => s
  | (t, e) :: rest => runTrace cfg (step cfg t s e) rest

/-! ## Sequential both-languages player (app.py lines 470-586)

The generated script for one card: playBothSequentially speaks the English
word, and the onend handler of the English utterance schedules the Korean
utterance after a 500 ms delay.  Four timers appear: the outer 15000 ms
safety timer (bothTimer), the 500 ms inter-utterance delay, the 8000 ms
Korean safety timeout, and the 6000 ms English safety timeout.  The local
variables englishEnded and koreanEnded of the source are fields here,
reinitialised on each click as each invocation creates fresh locals. -/

/-- The combined status line of the sequential player. -/
inductive BothStatus
  | empty
  | english
  | korean
  | done
deriving DecidableEq

/-- State of the sequential player of one card. -/
structure BothState where
  bothPlaying : Bool
  outerDeadline : Option ℚ
  englishEnded : Bool
  koreanEnded : Bool
  koreanStarted : Bool
  interDelayDeadline : Option ℚ
  korSafetyDeadline : Option ℚ
  engSafetyDeadline : Option ℚ
  status : BothStatus
  disabled : Bool
  cancelCount : ℕ
  speakEnglishCount : ℕ
  speakKoreanCount : ℕ
deriving DecidableEq

/-- The state right after the script is installed (app.py lines 471-472). -/
def bothInitial : BothState :=
  { bothPlaying := false, outerDeadline := none,
    englishEnded := false, koreanEnded := false, koreanStarted := false,
    interDelayDeadline := none, korSafetyDeadline := none,
    engSafetyDeadline := none,
    status := BothStatus.empty, disabled := false,
    cancelCount := 0, speakEnglishCount := 0, speakKoreanCount := 0 }

/-- resetBothButton (app.py lines 474-496): restore the button, write the
combined completion indicator, clear the outer timer, clear bothPlaying. -/
def resetBothButton (b : BothState) : BothState :=
  { b with disabled := false, status := BothStatus.done,
           outerDeadline := none, bothPlaying := false }

/-- playBothSequentially (app.py lines 498-585), run at time `now`:
return unchanged when bothPlaying is already set; otherwise cancel global
speech, clear a pending outer timer, enter the busy state, arm the outer
15000 ms safety timer, speak the English utterance (with fresh local
englishEnded and koreanEnded flags), and arm the 6000 ms English safety
timeout. -/
def playBothSequentially (now : ℚ) (b : BothState) : BothState :=
  if b.bothPlaying then b
  else
    { b with bothPlaying := true,
             cancelCount := b.cancelCount + 1,
             disabled := true, status := BothStatus.english,
             outerDeadline := some (now + 15000),
             englishEnded := false, koreanEnded := false, koreanStarted := false,
             interDelayDeadline := none, korSafetyDeadline := none,
             engSafetyDeadline := some (now + 6000),
             speakEnglishCount := b.speakEnglishCount + 1 }

/-- The events of the sequential player: the click, the terminal events of
the two utterances, and the four timer callbacks. -/
inductive BothEv
  | clickBoth
  | engEnd
  | engError
  | interDelayFire
  | korEnd
  | korError
  | korSafetyFire
  | engSafetyFire
  | outerTimerFire
deriving DecidableEq

/-- One event of the sequential player delivered at time `t`, translated
from the handlers of the generated script (app.py lines 498-585):

* engEnd (englishUtterance.onend): guarded by englishEnded; sets the Korean
  status and arms the 500 ms inter-utterance delay;
* engError (englishUtterance.onerror): guarded by englishEnded; calls
  resetBothButton directly — the Korean utterance is never scheduled;
* interDelayFire (the 500 ms setTimeout body): speaks the Korean utterance
  and arms the 8000 ms Korean safety timeout;
* korEnd and korError: guarded by koreanEnded; call resetBothButton;
* korSafetyFire and engSafetyFire: the 8000 ms and 6000 ms safety bodies —
  the English one only flips englishEnded and rewrites the status, it does
  not speak the Korean utterance;
* outerTimerFire: the 15000 ms safety body, resetBothButton.

Timer callbacks can only be delivered while their timer is armed and its
deadline has been reached, and each consumes its timer. -/
def bstep (t : ℚ) (b : BothState) : BothEv → BothState
  | BothEv.clickBoth => playBothSequentially t b
  | BothEv.engEnd =>
      if b.englishEnded then b
      else { b with englishEnded := true, status := BothStatus.korean,
                    interDelayDeadline := some (t + 500) }
  | BothEv.engError =>
      if b.englishEnded then b
      else resetBothButton { b with englishEnded := true }
  | BothEv.interDelayFire =>
      match b.interDelayDeadline with
      | some d =>
          if d ≤ t then
            { b with interDelayDeadline := none, koreanStarted := true,
                     speakKoreanCount := b.speakKoreanCount + 1,
                     korSafetyDeadline := some (t + 8000) }
          else b
      | none => b
  | BothEv.korEnd =>
      if b.koreanEnded then b
      else resetBothButton { b with koreanEnded := true }
  | BothEv.korError =>
      if b.koreanEnded then b
      else resetBothButton { b with koreanEnded := true }
  | BothEv.korSafetyFire =>
      match b.korSafetyDeadline with
      | some d =>
          if d ≤ t then
            if b.koreanEnded then { b with korSafetyDeadline := none }
            else resetBothButton { b with koreanEnded := true, korSafetyDeadline := none }
          else b
      | none => b
  | BothEv.engSafetyFire =>
      match b.engSafetyDeadline with
      | some d =>
          if d ≤ t then
            if b.englishEnded then { b with engSafetyDeadline := none }
            else { b with englishEnded := true, status := BothStatus.korean,
                          engSafetyDeadline := none }
          else b
      | none => b
  | BothEv.outerTimerFire =>
      match b.outerDeadline with
      | some d => if d ≤ t then resetBothButton b else b
      | none => b

/-- Deliver a list of timed events to the sequential player in order. -/
def runBoth (b : BothState) : List (ℚ × BothEv) → BothState
  | [] => b
  | (t, e) :: rest => runBoth (bstep t b e) rest

/-! ## Navigation over the cursor (app.py lines 375-390 and 595-608) -/

/-- The previous button (app.py line 597): current_index := max(0, i - 1). -/
def navPrev (i : ℤ) : ℤ := max 0 (i - 1)

/-- The next button (app.py line 602): current_index := min(len - 1, i + 1). -/
def navNext (len i : ℤ) : ℤ := min (len - 1) (i + 1)

/-- The restart button (app.py line 607): current_index := 0. -/
def navRestart : ℤ := 0

/-- The quick-jump selectbox (app.py lines 382-390): the chosen option is
one of range(len) and is assigned to current_index unchanged. -/
def quickJump (j : ℤ) : ℤ := j

/-- The shuffle button (app.py lines 375-378): the data is replaced by a
permutation of itself and current_index := 0. -/
def shuffleIndex : ℤ := 0

/-! ## Row filtering of auto_load_data and the progress computation
(app.py lines 332-340 and 393-400) -/

/-- One global pattern replacement over character lists, scanning left to
right and continuing after each inserted replacement, as the Python
str.replace does.  Fuel bounds the recursion; it is instantiated with the
length of the scanned list, which suffices since every call consumes at
least one character. -/
def replaceFuel : ℕ → List Char → List Char → List Char → List Char
  | 0, _, _, s => s
  | _ + 1, _, _, [] => []
  | fuel + 1, pat, rep, c :: rest =>
      if pat ≠ [] ∧ pat.isPrefixOf (c :: rest) then
        rep ++ replaceFuel fuel pat rep (List.drop pat.length (c :: rest))
      else
        c :: replaceFuel fuel pat rep rest

/-- text.replace(old, new) of Python, for a non-empty pattern. -/
def replaceAll (pat rep s : String) : String :=
  String.mk (replaceFuel s.data.length pat.data rep.data s.data)

/-- The korean_fixes table (app.py lines 72-77), in its source order. -/
def korean_fixes : List (String × String) := [
  ("ì¬ê³¼", "사과"),
  ("ì±", "책"),
  ("íë³µí", "행복한"),
  ("ë¬¼", "물"),
  ("ê³µë¶íë¤", "공부하다"),
  ("ìì´", "영어"),
  ("íêµ­ì´", "한국어"),
  ("ì»´í¨í°", "컴퓨터"),
  ("íêµ", "학교"),
  ("ì§", "집"),
  ("ì°¨", "차"),
  ("ì¬ë", "사람"),
  ("ìê°", "시간"),
  ("ê³µë¶", "공부"),
  ("íìµ", "학습")]

/-- fix_broken_korean (app.py lines 67-81) on a string value: apply the
fifteen replacements in order. -/
def fix_broken_korean (s : String) : String :=
  korean_fixes.foldl (fun t p => replaceAll p.1 p.2 t) s

/-- fix_broken_korean on a cell: a missing value (NaN) is returned
unchanged, a string is repaired. -/
def fixCell : Option String → Option String
  | none => none
  | some s => some (fix_broken_korean s)

/-- str.strip() of Python: drop whitespace from both ends. -/
def pyStrip (s : String) : String :=
  String.mk (((s.data.dropWhile Char.isWhitespace).reverse.dropWhile
    Char.isWhitespace).reverse)

/-- DataFrame.dropna (app.py line 335): keep the rows where both cells are
present. -/
def dropna (rows : List (Option String × Option String)) : List (String × String) :=
  rows.filterMap fun r =>
    match r with
    | (some w, some m) => some (w, m)
    | _ => none

/-- The row pipeline of auto_load_data after column renaming (app.py lines
332-336): repair both cells with fix_broken_korean, drop rows with missing
values, then keep the rows whose stripped word is non-empty. -/
def auto_load_filter (rows : List (Option String × Option String)) :
    List (String × String) :=
  (dropna (rows.map fun r => (fixCell r.1, fixCell r.2))).filter
    fun r => pyStrip r.1 != ""

/-- The progress computation of the main screen (app.py line 398):
progress = (current_idx + 1) / len(data).  The Python division raises
ZeroDivisionError when the loaded set is empty, embedded as none. -/
def progress (idx len : ℕ) : Option ℚ :=
  if len = 0 then none else some (((idx : ℚ) + 1) / (len : ℚ))

/-! ## Theorems -/

/-- C6: the duration estimator of the source, estimated_duration, equals the
reference definition estimatedMilliseconds(text, speechRate) =
max(2000, (length(text) / 12) * 1000 / speechRate + 1500), and consequently
for every text and every rate > 0 the result is at least 2000. -/
theorem C6_estimator_refines_spec (text : String) (rate : ℚ) (_hr : 0 < rate) :
    estimated_duration text rate = estimatedMilliseconds text rate ∧
    2000 ≤ estimated_duration text rate := by
  refine ⟨?_, le_max_left _ _⟩
  unfold estimated_duration estimatedMilliseconds
  rw [mul_one_div]

/-- Witness for C6 at text "apple" and rate 4/5. -/
theorem C6_estimator_refines_spec_witness :
    estimated_duration "apple" (4 / 5) = estimatedMilliseconds "apple" (4 / 5) ∧
    2000 ≤ estimated_duration "apple" (4 / 5) :=
  C6_estimator_refines_spec "apple" (4 / 5) (by norm_num)

/-- C7: for every text of length L and every rate r > 0, the estimator is
monotonically non-decreasing in L (holding r fixed) and monotonically
non-increasing in r (holding L fixed). -/
theorem C7_estimator_monotone (s1 s2 s : String) (r r1 r2 : ℚ)
    (hr : 0 < r) (hL : s1.length ≤ s2.length)
    (hr1 : 0 < r1) (hr12 : r1 ≤ r2) :
    estimated_duration s1 r ≤ estimated_duration s2 r ∧
    estimated_duration s r2 ≤ estimated_duration s r1 := by
  constructor
  · unfold estimated_duration
    refine max_le_max le_rfl (add_le_add_right ?_ _)
    refine mul_le_mul_of_nonneg_right ?_ (by positivity)
    refine mul_le_mul_of_nonneg_right ?_ (by norm_num)
    refine div_le_div_of_nonneg_right ?_ (by norm_num)
    exact_mod_cast hL
  · unfold estimated_duration
    refine max_le_max le_rfl (add_le_add_right ?_ _)
    refine mul_le_mul_of_nonneg_left ?_ (by positivity)
    exact one_div_le_one_div_of_le hr1 hr12

/-- Witness for C7 at texts "cat", "house", "apple" and rates 1, 4/5, 9/10. -/
theorem C7_estimator_monotone_witness :
    estimated_duration "cat" 1 ≤ estimated_duration "house" 1 ∧
    estimated_duration "apple" (9 / 10) ≤ estimated_duration "apple" (4 / 5) :=
  C7_estimator_monotone "cat" "house" "apple" 1 (4 / 5) (9 / 10)
    (by norm_num) (by decide) (by norm_num) (by norm_num)

/-- C8: for every non-empty vocabulary set the cursor invariant
0 ≤ current_index < length is preserved by every navigation operation:
previous, next, restart, a quick-jump to any listed position, and shuffle
(which permutes the data, keeping its length, and moves the cursor to 0);
moreover previous at index 0 stays at 0, next at the last index stays at the
last index, and from any interior index i, next followed by previous returns
to i. -/
theorem C8_cursor_invariant (len i j : ℤ) (l l2 : List (String × String))
    (hlen : 0 < len) (h0 : 0 ≤ i) (hi : i < len)
    (hj0 : 0 ≤ j) (hj : j < len)
    (hperm : List.Perm l l2) (hl : l ≠ []) :
    (0 ≤ navPrev i ∧ navPrev i < len) ∧
    (0 ≤ navNext len i ∧ navNext len i < len) ∧
    (0 ≤ navRestart ∧ navRestart < len) ∧
    (0 ≤ quickJump j ∧ quickJump j < len) ∧
    (0 ≤ shuffleIndex ∧ shuffleIndex < (l2.length : ℤ)) ∧
    navPrev 0 = 0 ∧
    navNext len (len - 1) = len - 1 ∧
    (i < len - 1 → navPrev (navNext len i) = i) := by
  have hlen2 : l2.length = l.length := hperm.length_eq.symm
  have hpos : 0 < l.length := List.length_pos.mpr hl
  unfold navPrev navNext navRestart quickJump shuffleIndex
  refine ⟨⟨?_, ?_⟩, ⟨?_, ?_⟩, ⟨?_, ?_⟩, ⟨?_, ?_⟩, ⟨?_, ?_⟩, ?_, ?_, ?_⟩ <;>
    omega

/-- Witness for C8 on a set of length 5 at cursor 2, quick-jump 4, and the
singleton list shuffled to itself. -/
theorem C8_cursor_invariant_witness :
    (0 ≤ navPrev 2 ∧ navPrev 2 < 5) ∧
    (0 ≤ navNext 5 2 ∧ navNext 5 2 < 5) ∧
    (0 ≤ navRestart ∧ navRestart < 5) ∧
    (0 ≤ quickJump 4 ∧ quickJump 4 < 5) ∧
    (0 ≤ shuffleIndex ∧ shuffleIndex < (([("a", "b")] : List (String × String)).length : ℤ)) ∧
    navPrev 0 = 0 ∧
    navNext 5 (5 - 1) = 5 - 1 ∧
    ((2 : ℤ) < 5 - 1 → navPrev (navNext 5 2) = 2) :=
  C8_cursor_invariant 5 2 4 [("a", "b")] [("a", "b")]
    (by norm_num) (by norm_num) (by norm_num) (by norm_num) (by norm_num)
    (List.Perm.refl _) (by simp)

/-- C9: while a playback session on a surface is live (isPlaying set), a new
click on that same surface is rejected as a no-op, so a second busy state or
a second watchdog for the surface can never be created; likewise a click on
the sequential player of a card while it is already active (bothPlaying set)
is a no-op. -/
theorem C9_reentrancy_guard (cfg : SurfaceCfg) (t t2 : ℚ)
    (s : SurfaceState) (b : BothState)
    (hs : s.isPlaying = true) (hb : b.bothPlaying = true) :
    step cfg t s Ev.click = s ∧ bstep t2 b BothEv.clickBoth = b := by
  constructor
  · simp [step, instantSpeak, hs]
  · simp [bstep, playBothSequentially, hb]

/-- Witness for C9 on a busy surface and a busy sequential player. -/
theorem C9_reentrancy_guard_witness :
    step ⟨"apple", "en", 4 / 5, true, true, true⟩ 0
        { initialSurface with isPlaying := true } Ev.click
      = { initialSurface with isPlaying := true } ∧
    bstep 0 { bothInitial with bothPlaying := true } BothEv.clickBoth
      = { bothInitial with bothPlaying := true } :=
  C9_reentrancy_guard ⟨"apple", "en", 4 / 5, true, true, true⟩ 0 0
    { initialSurface with isPlaying := true }
    { bothInitial with bothPlaying := true } rfl rfl

/-- C2: for every playback request with non-empty text on a surface whose
live engine then stays silent, the watchdog armed at request start carries
the deadline t0 + estimated_duration(text, rate), and its firing at any time
at or after that deadline (the deadline plus scheduling slack) forces the
terminal Idle state: the busy flag is cleared, the button re-enabled, and
the timer cleared. -/
theorem C2_watchdog_bound (cfg : SurfaceCfg) (s : SurfaceState) (t0 t : ℚ)
    (hidle : s.isPlaying = false) (_htext : cfg.text ≠ "")
    (hsyn : cfg.synthPresent = true) (hctor : cfg.utteranceCtor = true)
    (ht : t0 + estimated_duration cfg.text cfg.rate ≤ t) :
    (step cfg t0 s Ev.click).timerDeadline
        = some (t0 + estimated_duration cfg.text cfg.rate) ∧
    (step cfg t (step cfg t0 s Ev.click) Ev.watchdogFire).isPlaying = false ∧
    (step cfg t (step cfg t0 s Ev.click) Ev.watchdogFire).disabled = false ∧
    (step cfg t (step cfg t0 s Ev.click) Ev.watchdogFire).timerDeadline = none := by
  have hclick : step cfg t0 s Ev.click
      = { s with
          cancelCount := s.cancelCount + 1,
          isPlaying := true, label := BtnLabel.busy, disabled := true,
          status := StatusLine.playingLive,
          timerDeadline := some (t0 + estimated_duration cfg.text cfg.rate),
          speakCount := s.speakCount + 1 } := by
    simp [step, instantSpeak, hidle, hsyn, hctor]
  rw [hclick]
  simp [step, resetButton, ht]

/-- Witness for C2 on the surface for the word "apple" at rate 4/5, clicked
at time 0, with the watchdog firing at time 2100 (past the estimated
deadline 12125/6). -/
theorem C2_watchdog_bound_witness :
    (step ⟨"apple", "en", 4 / 5, true, true, true⟩ 0 initialSurface Ev.click).timerDeadline
        = some (0 + estimated_duration "apple" (4 / 5)) ∧
    (step ⟨"apple", "en", 4 / 5, true, true, true⟩ 2100
        (step ⟨"apple", "en", 4 / 5, true, true, true⟩ 0 initialSurface Ev.click)
        Ev.watchdogFire).isPlaying = false ∧
    (step ⟨"apple", "en", 4 / 5, true, true, true⟩ 2100
        (step ⟨"apple", "en", 4 / 5, true, true, true⟩ 0 initialSurface Ev.click)
        Ev.watchdogFire).disabled = false ∧
    (step ⟨"apple", "en", 4 / 5, true, true, true⟩ 2100
        (step ⟨"apple", "en", 4 / 5, true, true, true⟩ 0 initialSurface Ev.click)
        Ev.watchdogFire).timerDeadline = none :=
  C2_watchdog_bound ⟨"apple", "en", 4 / 5, true, true, true⟩ initialSurface 0 2100
    rfl (by decide) rfl rfl
    (by
      have h5 : ("apple" : String).length = 5 := by decide
      norm_num [estimated_duration, h5])

/-- Counterexample to C3 as stated: on the surface for the word "apple"
(rate 4/5, fallback audio present), after a click at time 0 and an engine
error event at time 100 the watchdog timer is still armed — the engine error
handler of the source only calls playFallbackAudio and never clears the
timer, so the claim that the controller cancels the watchdog is false. -/
theorem C3_counterexample :
    (runTrace ⟨"apple", "en", 4 / 5, true, true, true⟩ initialSurface
        [(0, Ev.click), (100, Ev.engineError)]).timerDeadline ≠ none := by
  simp [runTrace, step, instantSpeak, playFallbackAudio, initialSurface]

/-- C3 amended: when the live engine fires an error event while the fallback
clip is available, the controller delegates to the Fallback Dispatcher with
the same text and language and does not transition directly to Idle, but it
leaves the watchdog timer armed exactly as it was rather than cancelling
it. -/
theorem C3_amended_error_delegates (cfg : SurfaceCfg) (s : SurfaceState) (t : ℚ)
    (hfb : cfg.hasFallback = true) :
    (step cfg t s Ev.engineError).fallbackRequested = some (cfg.text, cfg.lang) ∧
    (step cfg t s Ev.engineError).timerDeadline = s.timerDeadline ∧
    (step cfg t s Ev.engineError).isPlaying = s.isPlaying ∧
    (step cfg t s Ev.engineError).status = StatusLine.playingFallback := by
  simp [step, playFallbackAudio, hfb]

/-- Witness for the amended C3 on a busy surface with an armed watchdog. -/
theorem C3_amended_error_delegates_witness :
    (step ⟨"apple", "en", 4 / 5, true, true, true⟩ 100
        { initialSurface with isPlaying := true, timerDeadline := some 2500 }
        Ev.engineError).fallbackRequested = some ("apple", "en") ∧
    (step ⟨"apple", "en", 4 / 5, true, true, true⟩ 100
        { initialSurface with isPlaying := true, timerDeadline := some 2500 }
        Ev.engineError).timerDeadline = some 2500 ∧
    (step ⟨"apple", "en", 4 / 5, true, true, true⟩ 100
        { initialSurface with isPlaying := true, timerDeadline := some 2500 }
        Ev.engineError).isPlaying = true ∧
    (step ⟨"apple", "en", 4 / 5, true, true, true⟩ 100
        { initialSurface with isPlaying := true, timerDeadline := some 2500 }
        Ev.engineError).status = StatusLine.playingFallback := by
  exact C3_amended_error_delegates ⟨"apple", "en", 4 / 5, true, true, true⟩
    { initialSurface with isPlaying := true, timerDeadline := some 2500 } 100 rfl

/-- Counterexample to C5 as stated: a click with empty text on an idle
surface is not a no-op — it increments the global cancel counter, enters the
busy state, arms the watchdog at the 2000 ms floor, and dispatches a live
utterance, contradicting the claim of no side effects. -/
theorem C5_counterexample :
    (step ⟨"", "en", 4 / 5, true, true, true⟩ 0 initialSurface Ev.click).isPlaying
        = true ∧
    (step ⟨"", "en", 4 / 5, true, true, true⟩ 0 initialSurface Ev.click).timerDeadline
        = some 2000 ∧
    (step ⟨"", "en", 4 / 5, true, true, true⟩ 0 initialSurface Ev.click).cancelCount
        = 1 ∧
    (step ⟨"", "en", 4 / 5, true, true, true⟩ 0 initialSurface Ev.click).speakCount
        = 1 ∧
    (step ⟨"", "en", 4 / 5, true, true, true⟩ 0 initialSurface Ev.click).disabled
        = true := by
  have hest : estimated_duration "" (4 / 5) = 2000 := by
    have h0 : ("" : String).length = 0 := by decide
    unfold estimated_duration
    rw [h0]
    norm_num
  refine ⟨?_, ?_, ?_, ?_, ?_⟩ <;>
    simp [step, instantSpeak, initialSurface, hest]

/-- C5 amended: a playback request with empty text is not special-cased; on
an idle surface it proceeds exactly like any other request — it cancels
global speech, enters the busy UI state, arms the watchdog at the 2000 ms
floor of the estimator, and dispatches a synthesis attempt. -/
theorem C5_amended_empty_not_noop (cfg : SurfaceCfg) (s : SurfaceState) (t0 : ℚ)
    (hidle : s.isPlaying = false) (htext : cfg.text = "")
    (hsyn : cfg.synthPresent = true) (hctor : cfg.utteranceCtor = true) :
    (step cfg t0 s Ev.click).isPlaying = true ∧
    (step cfg t0 s Ev.click).timerDeadline = some (t0 + 2000) ∧
    (step cfg t0 s Ev.click).cancelCount = s.cancelCount + 1 ∧
    (step cfg t0 s Ev.click).speakCount = s.speakCount + 1 := by
  have hest : estimated_duration cfg.text cfg.rate = 2000 := by
    rw [htext]
    have h0 : ("" : String).length = 0 := by decide
    unfold estimated_duration
    rw [h0]
    norm_num
  simp [step, instantSpeak, hidle, hsyn, hctor, hest]

/-- Witness for the amended C5 on an idle surface with empty text clicked
at time 7. -/
theorem C5_amended_empty_not_noop_witness :
    (step ⟨"", "ko", 9 / 10, true, true, true⟩ 7 initialSurface Ev.click).isPlaying
        = true ∧
    (step ⟨"", "ko", 9 / 10, true, true, true⟩ 7 initialSurface Ev.click).timerDeadline
        = some (7 + 2000) ∧
    (step ⟨"", "ko", 9 / 10, true, true, true⟩ 7 initialSurface Ev.click).cancelCount
        = initialSurface.cancelCount + 1 ∧
    (step ⟨"", "ko", 9 / 10, true, true, true⟩ 7 initialSurface Ev.click).speakCount
        = initialSurface.speakCount + 1 :=
  C5_amended_empty_not_noop ⟨"", "ko", 9 / 10, true, true, true⟩ initialSurface 7
    rfl rfl rfl rfl

/-- The surface configuration of the word "apple" at rate 4/5 with fallback
audio, live engine and utterance constructor present. -/
def appleCfg : SurfaceCfg := ⟨"apple", "en", 4 / 5, true, true, true⟩

/-- The failing run for C1: click at 0, live engine error at 100, fallback
clip error at 200.  The session settles with the failure indicator and
isPlaying cleared, but the watchdog is still armed. -/
def appleFailedRun : SurfaceState :=
  runTrace appleCfg initialSurface
    [(0, Ev.click), (100, Ev.engineError), (200, Ev.clipError)]

/-- C1 fails on the code: after the fallback clip error settles the session
with the failure indicator (isPlaying cleared, status failed), the watchdog
armed at the click is still pending, and its later firing runs resetButton,
which writes the completion indicator — a second terminal indicator, of
success, for a request that already terminated in failure.  The cause is
that the clip error handler of the source omits clearTimeout on the
watchdog. -/
theorem C1_stale_watchdog_second_indicator :
    appleFailedRun.isPlaying = false ∧
    appleFailedRun.status = StatusLine.failed ∧
    appleFailedRun.timerDeadline ≠ none ∧
    (step appleCfg 2100 appleFailedRun Ev.watchdogFire).status = StatusLine.done := by
  have hrun : appleFailedRun
      = { isPlaying := false,
          timerDeadline := some (0 + estimated_duration "apple" (4 / 5)),
          label := BtnLabel.original, disabled := false,
          status := StatusLine.failed, cancelCount := 1, speakCount := 1,
          fallbackRequested := some ("apple", "en") } := by
    simp [appleFailedRun, runTrace, step, appleCfg, instantSpeak,
      playFallbackAudio, clipErrorHandler, initialSurface]
  have hle : estimated_duration "apple" (4 / 5) ≤ 2100 := by
    have h5 : ("apple" : String).length = 5 := by decide
    norm_num [estimated_duration, h5]
  rw [hrun]
  refine ⟨rfl, rfl, by simp, ?_⟩
  simp [step, appleCfg, resetButton, hle]

/-- Counterexample to C4 as stated: on the sequential player, after a click
at time 0 and an English (term) error event at time 100, the combined state
is already Idle with the completion indicator, the Korean (meaning)
utterance was never dispatched and its delay timer was never armed — a
failed first utterance does block the second, and the combined state reached
Idle before any meaning terminal event. -/
theorem C4_counterexample :
    (runBoth bothInitial [(0, BothEv.clickBoth), (100, BothEv.engError)]).bothPlaying
        = false ∧
    (runBoth bothInitial [(0, BothEv.clickBoth), (100, BothEv.engError)]).status
        = BothStatus.done ∧
    (runBoth bothInitial [(0, BothEv.clickBoth), (100, BothEv.engError)]).koreanStarted
        = false ∧
    (runBoth bothInitial [(0, BothEv.clickBoth), (100, BothEv.engError)]).speakKoreanCount
        = 0 ∧
    (runBoth bothInitial [(0, BothEv.clickBoth), (100, BothEv.engError)]).interDelayDeadline
        = none := by
  refine ⟨?_, ?_, ?_, ?_, ?_⟩ <;>
    simp [runBoth, bstep, playBothSequentially, resetBothButton, bothInitial]

/-- C4 amended: in the Sequential Playback Orchestrator, only a successful
term playback (the engine completion event) leads to the meaning playback:
it arms the fixed 500 ms inter-utterance delay, after which the meaning
utterance is dispatched with its 8000 ms safety timeout, the combined state
staying busy throughout and reaching Idle on the meaning terminal event; the
outer 15000 ms safety timer armed at the click independently forces Idle.
A term playback that ends in engine error instead transitions the combined
state directly to Idle and the meaning playback is never started. -/
theorem C4_amended_error_blocks_meaning
    (b0 b1 b2 b3 b4 e2 : BothState) (t0 t1 t2 t3 t4 : ℚ)
    (h0 : b0.bothPlaying = false)
    (hb1 : b1 = bstep t0 b0 BothEv.clickBoth)
    (hb2 : b2 = bstep t1 b1 BothEv.engEnd)
    (ht2 : t1 + 500 ≤ t2)
    (hb3 : b3 = bstep t2 b2 BothEv.interDelayFire)
    (hb4 : b4 = bstep t3 b3 BothEv.korEnd)
    (he2 : e2 = bstep t1 b1 BothEv.engError)
    (ht4 : t0 + 15000 ≤ t4) :
    (b2.interDelayDeadline = some (t1 + 500) ∧ b2.bothPlaying = true ∧
      b2.status = BothStatus.korean) ∧
    (b3.koreanStarted = true ∧ b3.speakKoreanCount = b0.speakKoreanCount + 1 ∧
      b3.bothPlaying = true ∧ b3.korSafetyDeadline = some (t2 + 8000)) ∧
    (b4.bothPlaying = false ∧ b4.status = BothStatus.done) ∧
    (bstep t4 b1 BothEv.outerTimerFire).bothPlaying = false ∧
    (e2.bothPlaying = false ∧ e2.status = BothStatus.done ∧
      e2.koreanStarted = false ∧ e2.speakKoreanCount = b0.speakKoreanCount) := by
  subst hb1 hb2 hb3 hb4 he2
  refine ⟨⟨?_, ?_, ?_⟩, ⟨?_, ?_, ?_, ?_⟩, ⟨?_, ?_⟩, ?_, ⟨?_, ?_, ?_, ?_⟩⟩ <;>
    simp [bstep, playBothSequentially, resetBothButton, h0, ht2, ht4]

/-- Witness for the amended C4: click at 0, term completion at 1000, the
delay timer firing at 1600, the meaning completion at 3000, the outer timer
tested at 16000, and the term error branch at 1000. -/
theorem C4_amended_error_blocks_meaning_witness :
    ((bstep 1000 (bstep 0 bothInitial BothEv.clickBoth) BothEv.engEnd).interDelayDeadline
        = some (1000 + 500) ∧
      (bstep 1000 (bstep 0 bothInitial BothEv.clickBoth) BothEv.engEnd).bothPlaying
        = true ∧
      (bstep 1000 (bstep 0 bothInitial BothEv.clickBoth) BothEv.engEnd).status
        = BothStatus.korean) ∧
    ((bstep 1600 (bstep 1000 (bstep 0 bothInitial BothEv.clickBoth) BothEv.engEnd)
          BothEv.interDelayFire).koreanStarted = true ∧
      (bstep 1600 (bstep 1000 (bstep 0 bothInitial BothEv.clickBoth) BothEv.engEnd)
          BothEv.interDelayFire).speakKoreanCount = bothInitial.speakKoreanCount + 1 ∧
      (bstep 1600 (bstep 1000 (bstep 0 bothInitial BothEv.clickBoth) BothEv.engEnd)
          BothEv.interDelayFire).bothPlaying = true ∧
      (bstep 1600 (bstep 1000 (bstep 0 bothInitial BothEv.clickBoth) BothEv.engEnd)
          BothEv.interDelayFire).korSafetyDeadline = some (1600 + 8000)) ∧
    ((bstep 3000 (bstep 1600 (bstep 1000 (bstep 0 bothInitial BothEv.clickBoth)
          BothEv.engEnd) BothEv.interDelayFire) BothEv.korEnd).bothPlaying = false ∧
      (bstep 3000 (bstep 1600 (bstep 1000 (bstep 0 bothInitial BothEv.clickBoth)
          BothEv.engEnd) BothEv.interDelayFire) BothEv.korEnd).status
        = BothStatus.done) ∧
    (bstep 16000 (bstep 0 bothInitial BothEv.clickBoth) BothEv.outerTimerFire).bothPlaying
        = false ∧
    ((bstep 1000 (bstep 0 bothInitial BothEv.clickBoth) BothEv.engError).bothPlaying
        = false ∧
      (bstep 1000 (bstep 0 bothInitial BothEv.clickBoth) BothEv.engError).status
        = BothStatus.done ∧
      (bstep 1000 (bstep 0 bothInitial BothEv.clickBoth) BothEv.engError).koreanStarted
        = false ∧
      (bstep 1000 (bstep 0 bothInitial BothEv.clickBoth) BothEv.engError).speakKoreanCount
        = bothInitial.speakKoreanCount) := by
  exact C4_amended_error_blocks_meaning bothInitial
    (bstep 0 bothInitial BothEv.clickBoth)
    (bstep 1000 (bstep 0 bothInitial BothEv.clickBoth) BothEv.engEnd)
    (bstep 1600 (bstep 1000 (bstep 0 bothInitial BothEv.clickBoth) BothEv.engEnd)
      BothEv.interDelayFire)
    (bstep 3000 (bstep 1600 (bstep 1000 (bstep 0 bothInitial BothEv.clickBoth)
      BothEv.engEnd) BothEv.interDelayFire) BothEv.korEnd)
    (bstep 1000 (bstep 0 bothInitial BothEv.clickBoth) BothEv.engError)
    0 1000 1600 3000 16000
    rfl rfl rfl (by norm_num) rfl rfl rfl (by norm_num)

/-- C10: the progress computation of the main screen divides by the length
of the loaded set, so whenever the set loads successfully but every row is
dropped by the filtering of auto_load_data (missing values or
whitespace-only words) the computation divides by zero; it is safe exactly
under the precondition that the loaded set is non-empty, where it yields
(current_index + 1) / length. -/
theorem C10_progress_division (rows : List (Option String × Option String))
    (idx len : ℕ)
    (hrows : auto_load_filter rows = []) (hlen : 0 < len) :
    progress idx (auto_load_filter rows).length = none ∧
    progress idx len = some (((idx : ℚ) + 1) / (len : ℚ)) := by
  refine ⟨?_, ?_⟩
  · simp [hrows, progress]
  · have hne : len ≠ 0 := Nat.pos_iff_ne_zero.mp hlen
    simp [progress, hne]

/-- Witness for C10 on a set that loads with two rows — a whitespace-only
word and a missing word — and filters to empty, against a non-empty length
of 5 at cursor 0. -/
theorem C10_progress_division_witness :
    progress 0 (auto_load_filter
        [(some "  ", some "사과"), (none, some "x")]).length = none ∧
    progress 0 5 = some (((0 : ℚ) + 1) / (5 : ℚ)) :=
  C10_progress_division [(some "  ", some "사과"), (none, some "x")] 0 5
    (by decide) (by norm_num)

end VocabApp
